import Mathlib

/-
Shallow embedding of the Shopify product uploader (src/app.py) and proofs
about it.

Modelling conventions:
* Python strings are `String`; helper functions (`pyLower`, `pyStrip`,
  `pySplitSlash`, `pyJoin`) reimplement the exact ASCII behaviour of
  `str.lower`, `str.strip`, `str.split("/")` and `", ".join` with
  structural recursion so that the kernel can evaluate them.
* Zip archive entries (`zipfile.ZipInfo` plus the bytes `zf.read` returns)
  are `ZipEntry` records; `zf.infolist()` is a `List ZipEntry` in archive
  enumeration order.
* `time.mktime(datetime(*t).timetuple())` is modelled as the proleptic
  Gregorian epoch-seconds conversion (`mktime_model`), i.e. the UTC
  determinization of the platform/timezone dependent `mktime`; every claim
  proved below depends only on 0 being below every epoch value of a valid
  date of year at least 1980, which holds for every timezone offset.
  `float` keys are modelled as `Int` (all values produced are integral).
* Python's `sorted(xs, key=k)` is `pySortBy k xs`: the unique permutation
  that is sorted by the pair (key, original index) — exactly Python's
  stable ascending sort.
* HTTP traffic is external: responses are oracle parameters, and a call
  that raises `requests.HTTPError` is an `Except.error (PyErr.http body msg)`
  where `body` is the parsed JSON of the response when parseable.
-/

/-- A Python scalar value as it appears in the JSON dictionaries the code
manipulates (`None`, strings, integers, booleans). -/
inductive PyVal where
  | null : PyVal
  | str : String → PyVal
  | int : Int → PyVal
  | bool : Bool → PyVal
deriving DecidableEq

/-- A Python dict with string keys, in insertion order. -/
abbrev PyDict := List (String × PyVal)

/-- Characters `str.strip()` removes (ASCII whitespace). -/
def isSpaceChar (c : Char) : Bool :=
  c = ' ' || c = Char.ofNat 9 || c = Char.ofNat 10 || c = Char.ofNat 13 ||
  c = Char.ofNat 11 || c = Char.ofNat 12

/-- Python `str.strip()`. -/
def pyStrip (s : String) : String :=
  String.mk (((s.data.dropWhile isSpaceChar).reverse.dropWhile isSpaceChar).reverse)

/-- ASCII lower-casing of one character, as `str.lower` does on ASCII. -/
def lowerChar (c : Char) : Char :=
  if 65 ≤ c.toNat ∧ c.toNat ≤ 90 then Char.ofNat (c.toNat + 32) else c

/-- Python `str.lower()` (the code only lower-cases ASCII data). -/
def pyLower (s : String) : String := String.mk (s.data.map lowerChar)

/-- Split a character list at every slash, keeping empty segments,
like Python `str.split("/")`. -/
def splitOnSlash : List Char → List (List Char)
  | [] => [[]]
  | c :: cs =>
    match splitOnSlash cs with
    | [] => [[]]
    | p :: ps => if c = '/' then [] :: p :: ps else (c :: p) :: ps

/-- Python `s.split("/")`. -/
def pySplitSlash (s : String) : List String := (splitOnSlash s.data).map String.mk

/-- Python `os.path.basename` for slash-separated paths. -/
def basename (p : String) : String := (pySplitSlash p).getLastD ""

/-- Python `s.endswith(suff)`. -/
def pyEndsWith (s suff : String) : Bool := suff.data.isSuffixOf s.data

/-- Python `sep.join(xs)`. -/
def pyJoin (sep : String) : List String → String
  | [] => ""
  | [x] => x
  | x :: y :: xs => x ++ sep ++ pyJoin sep (y :: xs)

/-- The recognised image extensions (src/app.py:60). -/
def imageExtensions : List String := [".jpg", ".jpeg", ".png", ".gif", ".webp", ".bmp"]

/-- `is_image` (src/app.py:58-60): case-insensitive extension test. -/
def is_image (filename : String) : Bool :=
  let fname := pyLower filename
  imageExtensions.any (fun ext => pyEndsWith fname ext)

/-- The 6-field date-time tuple of `zipfile.ZipInfo.date_time`. -/
structure DateTime6 where
  year : Nat
  month : Nat
  day : Nat
  hour : Nat
  minute : Nat
  second : Nat
deriving DecidableEq

/-- Gregorian leap-year test. -/
def isLeapYear (y : Nat) : Bool := y % 4 == 0 && (y % 100 != 0 || y % 400 == 0)

/-- Number of days of month `m` in year `y`. -/
def daysInMonth (y m : Nat) : Nat :=
  if m = 2 then (if isLeapYear y then 29 else 28)
  else if m = 4 ∨ m = 6 ∨ m = 9 ∨ m = 11 then 30
  else 31

/-- The argument ranges `datetime.datetime(*t)` accepts; outside them the
constructor raises `ValueError` (MINYEAR = 1, MAXYEAR = 9999). -/
def datetime_ok (t : DateTime6) : Prop :=
  1 ≤ t.year ∧ t.year ≤ 9999 ∧ 1 ≤ t.month ∧ t.month ≤ 12 ∧
  1 ≤ t.day ∧ t.day ≤ daysInMonth t.year t.month ∧
  t.hour ≤ 23 ∧ t.minute ≤ 59 ∧ t.second ≤ 59

instance : DecidablePred datetime_ok := fun t => by unfold datetime_ok; infer_instance

/-- Days in all years strictly before year `y` (proleptic Gregorian). -/
def daysBeforeYear (y : Nat) : Nat :=
  let py := y - 1
  py * 365 + py / 4 - py / 100 + py / 400

/-- Days in the months of year `y` strictly before month `m`. -/
def daysBeforeMonth (y m : Nat) : Nat :=
  (List.range' 1 (m - 1)).foldl (fun acc mm => acc + daysInMonth y mm) 0

/-- Proleptic Gregorian ordinal of a date (0001-01-01 has ordinal 1),
as in Python `datetime.toordinal`. -/
def toOrdinal (t : DateTime6) : Nat :=
  daysBeforeYear t.year + daysBeforeMonth t.year t.month + t.day

/-- `datetime.date(1970, 1, 1).toordinal()`. -/
def epochOrdinal : Nat := 719163

/-- `time.mktime(datetime(*t).timetuple())` for an in-range tuple `t`,
determinized to the UTC epoch-seconds conversion. -/
def mktime_model (t : DateTime6) : Int :=
  ((toOrdinal t : Int) - (epochOrdinal : Int)) * 86400 +
    (t.hour : Int) * 3600 + (t.minute : Int) * 60 + (t.second : Int)

/-- The body of `human_ts` without its `try/except` (src/app.py:53):
an `Except.error` is the exception the `datetime` constructor raises on an
out-of-range tuple. -/
def human_ts_attempt (t : DateTime6) : Except Unit Int :=
  if datetime_ok t then Except.ok (mktime_model t) else Except.error ()

/-- `human_ts` (src/app.py:50-55): the `except Exception: return 0.0`
wrapper around `human_ts_attempt`. -/
def human_ts (t : DateTime6) : Int :=
  match human_ts_attempt t with
  | Except.ok v => v
  | Except.error _ => 0

/-- One file record of the zip archive: `ZipInfo` data plus the raw bytes
`zf.read(info)` yields. -/
structure ZipEntry where
  filename : String
  is_dir : Bool
  date_time : DateTime6
  content : List Nat
deriving DecidableEq

/-- One element of the `images_payload` list (src/app.py:100-104). -/
structure ImagePayload where
  attachment : String
  filename : String
  position : Nat
deriving DecidableEq

/-- One element of the list `parse_zip_models` returns (src/app.py:106-110). -/
structure ModelGroup where
  model : String
  images : List ImagePayload
  warnings : List String
deriving DecidableEq

/-- Comparison used to model Python's stable ascending `sorted(·, key)`:
order by key, breaking ties by original position. -/
def pyKeyRel {α β : Type} [LinearOrder β] (key : α → β) (p q : Nat × α) : Prop :=
  key p.2 < key q.2 ∨ (key p.2 = key q.2 ∧ p.1 ≤ q.1)

instance {α β : Type} [LinearOrder β] (key : α → β) : DecidableRel (pyKeyRel key) :=
  fun p q => by unfold pyKeyRel; infer_instance

instance {α β : Type} [LinearOrder β] (key : α → β) : IsTotal (Nat × α) (pyKeyRel key) where
  total p q := by
    unfold pyKeyRel
    rcases lt_trichotomy (key p.2) (key q.2) with h | h | h
    · exact Or.inl (Or.inl h)
    · rcases Nat.le_total p.1 q.1 with h2 | h2
      · exact Or.inl (Or.inr ⟨h, h2⟩)
      · exact Or.inr (Or.inr ⟨h.symm, h2⟩)
    · exact Or.inr (Or.inl h)

instance {α β : Type} [LinearOrder β] (key : α → β) : IsTrans (Nat × α) (pyKeyRel key) where
  trans p q r hpq hqr := by
    unfold pyKeyRel at *
    rcases hpq with h1 | ⟨h1, h1i⟩
    · rcases hqr with h2 | ⟨h2, _⟩
      · exact Or.inl (h1.trans h2)
      · exact Or.inl (h2 ▸ h1)
    · rcases hqr with h2 | ⟨h2, h2i⟩
      · exact Or.inl (h1 ▸ h2)
      · exact Or.inr ⟨h1.trans h2, h1i.trans h2i⟩

/-- Python `sorted(l, key)`: the stable ascending sort by `key`. -/
def pySortBy {α β : Type} [LinearOrder β] (key : α → β) (l : List α) : List α :=
  (List.insertionSort (pyKeyRel key) l.enum).map Prod.snd

/-- The base64 alphabet. -/
def b64Alphabet : List Char :=
  "ABCDEFGHIJKLMNOPQRSTUVWXYZabcdefghijklmnopqrstuvwxyz0123456789+/".data

/-- Character of a 6-bit group. -/
def b64Char (n : Nat) : Char := b64Alphabet.getD n (Char.ofNat 65)

/-- Standard base64 of a byte list, with padding. -/
def b64chars : List Nat → List Char
  | [] => []
  | [b1] => [b64Char (b1 / 4), b64Char (b1 % 4 * 16), Char.ofNat 61, Char.ofNat 61]
  | [b1, b2] =>
    [b64Char (b1 / 4), b64Char (b1 % 4 * 16 + b2 / 16), b64Char (b2 % 16 * 4), Char.ofNat 61]
  | b1 :: b2 :: b3 :: rest =>
    b64Char (b1 / 4) :: b64Char (b1 % 4 * 16 + b2 / 16) ::
      b64Char (b2 % 16 * 4 + b3 / 64) :: b64Char (b3 % 64) :: b64chars rest

/-- `base64.b64encode(raw).decode("utf-8")` (src/app.py:99). -/
def b64encode (bs : List Nat) : String := String.mk (b64chars bs)

/-- The fallback warning string appended at src/app.py:88. -/
def tsWarning : String := "Timestamp non disponibili: ordinamento alfabetico usato."

/-- A single ASCII apostrophe. -/
def squote : String := String.mk [Char.ofNat 39]

/-- The image-count warning f-string of src/app.py:93. -/
def countWarning (folder : String) (n : Nat) : String :=
  "La cartella " ++ squote ++ folder ++ squote ++ " contiene " ++ toString n ++
    " immagini (attese: 2). Verranno usate le prime 2."

/-- Python `sorted(l, key)` where evaluating the key can raise: the sort
raises exactly when the key raises on some element. -/
def sortedByKeyE {α : Type} (key : α → Except Unit Int) (l : List α) :
    Except Unit (List α) :=
  if l.all (fun a => (key a).isOk) then
    Except.ok (pySortBy (fun a => ((key a).toOption).getD 0) l)
  else Except.error ()

/-- The `try/except` around the sort at src/app.py:84-88. The key function
passed to `sorted` is `human_ts`, whose own `try/except` traps every
exception, so it is the total function `human_ts` wrapped in `Except.ok`. -/
def sort_step (infos : List ZipEntry) : List ZipEntry × List String :=
  match sortedByKeyE (fun i => Except.ok (human_ts i.date_time)) infos with
  | Except.ok s => (s, [])
  | Except.error _ => (pySortBy (fun i => i.filename) infos, [tsWarning])

/-- Lines 84-94 of src/app.py applied to one folder's entries: the sorted,
re-filtered and (when the count is not 2) truncated entry list. -/
def resolvedEntries (infos : List ZipEntry) : List ZipEntry :=
  if ((sort_step infos).1.filter (fun i => is_image i.filename)).length ≠ 2 then
    ((sort_step infos).1.filter (fun i => is_image i.filename)).take 2
  else (sort_step infos).1.filter (fun i => is_image i.filename)

/-- Lines 96-104 of src/app.py: build the images payload, with 1-based
positions following the resolved order. -/
def buildImagesPayload (img_infos : List ZipEntry) : List ImagePayload :=
  img_infos.enum.map (fun p =>
    { attachment := b64encode p.2.content, filename := basename p.2.filename,
      position := p.1 + 1 })

/-- Lines 81-110 of src/app.py for a single folder group. -/
def processGroup (folder : String) (infos : List ZipEntry) : ModelGroup :=
  let sorted_and_warn := sort_step infos
  let img_infos := sorted_and_warn.1.filter (fun i => is_image i.filename)
  let truncated := if img_infos.length ≠ 2 then img_infos.take 2 else img_infos
  let warnings :=
    if img_infos.length ≠ 2 then
      sorted_and_warn.2 ++ [countWarning folder img_infos.length]
    else sorted_and_warn.2
  { model := folder, images := buildImagesPayload truncated, warnings := warnings }

/-- Append an entry to its folder's group, preserving dict insertion order
(`folders.setdefault(folder, []).append(info)`, src/app.py:78). -/
def addToGroups (gs : List (String × List ZipEntry)) (folder : String) (e : ZipEntry) :
    List (String × List ZipEntry) :=
  match gs with
  | [] => [(folder, [e])]
  | (f, es) :: rest =>
    if f = folder then (f, es ++ [e]) :: rest else (f, es) :: addToGroups rest folder e

/-- Lines 67-78 of src/app.py: group the image entries (below at least one
folder) by trimmed first path segment. -/
def groupFolders (entries : List ZipEntry) : List (String × List ZipEntry) :=
  entries.foldl
    (fun gs info =>
      if info.is_dir then gs
      else if !is_image info.filename then gs
      else
        let parts := pySplitSlash info.filename
        if parts.length < 2 then gs
        else addToGroups gs (pyStrip (parts.headD "")) info)
    []

/-- `parse_zip_models` (src/app.py:63-111). -/
def parse_zip_models (entries : List ZipEntry) : List ModelGroup :=
  (groupFolders entries).map (fun p => processGroup p.1 p.2)

/-- `DESCRIPTION_HTML` (src/app.py:38-44). -/
def DESCRIPTION_HTML : String :=
  "Il desiderio di privacy è del tutto normale... Sia in azienda che nel comfort della propria casa, permette di ritrovarsi ed essere se stessi.\n\nCon la nostra gamma di pellicole design, si aprono nuove possibilità di privacy per coloro&nbsp;che ne hanno bisogno, che si tratti di una sala riunioni o una stanza da bagno.\n\nLe nostre pellicole offrono diversi livelli di opacità e differenti motivi, per corrispondere meglio alle esigenze di privacy, senza diminuire di luminosità.\n\nIspirandosi alla città, alla natura, alle forme geometriche o al cielo, sono disponibili decine di modelli colorati od opachi per rivestimento, che si possono adattare ai vetri di imprese e negozi: pellicole opalescenti, sfumate, bianche, grigie o nere, occultanti o colorate. La pellicola Aurora con tecnologia dicroica offre un gioco di luci impercettibile.\n\nOriginalità garantita!"

/-- `DEFAULT_COLLECTIONS` (src/app.py:46). -/
def DEFAULT_COLLECTIONS : List String := ["Homepage", "Pellicole per Vetri", "Decorative"]

/-- The key set removed from every template variant (src/app.py:130). -/
def variantDropKeys : List String :=
  ["id", "product_id", "admin_graphql_api_id", "position", "created_at", "updated_at", "image_id"]

/-- The key set removed from every template option (src/app.py:138). -/
def optionDropKeys : List String :=
  ["id", "product_id", "admin_graphql_api_id", "position"]

/-- The dict comprehension of src/app.py:132 and :140: keep every pair whose
key is not in the drop set, in insertion order. -/
def scrubDict (dropKeys : List String) (d : PyDict) : PyDict :=
  d.filter (fun kv => !(dropKeys.contains kv.1))

/-- `ShopifyClient._scrub_variants` (src/app.py:128-134). The argument is
`template.get("variants")`, which may be `None`; `variants or []` maps
`none` to the empty list. -/
def scrub_variants (variants : Option (List PyDict)) : List PyDict :=
  (variants.getD []).map (scrubDict variantDropKeys)

/-- `ShopifyClient._scrub_options` (src/app.py:136-142). -/
def scrub_options (options : Option (List PyDict)) : List PyDict :=
  (options.getD []).map (scrubDict optionDropKeys)

/-- Modelled from the spec (claim C5 comparison only): the scrub the spec
describes in its section 4.2, which strips the created/updated timestamps
from options as well. -/
def spec42OptionDropKeys : List String :=
  ["id", "product_id", "admin_graphql_api_id", "position", "created_at", "updated_at"]

/-- Modelled from the spec (claim C5 comparison only): option scrubbing that
removes exactly the identity fields the spec lists in section 4.2. -/
def scrub_options_speced (options : Option (List PyDict)) : List PyDict :=
  (options.getD []).map (scrubDict spec42OptionDropKeys)

/-- One remote collection record as returned inside
`custom_collections`/`smart_collections` list responses. -/
structure CollectionRec where
  id : Int
  title : String
  handle : String
deriving DecidableEq

/-- The store's collection lists, used as the state the collection list
endpoints filter over (`?title=` and `?handle=` are exact-match filters,
`limit=1` keeps the first hit). -/
structure StoreState where
  custom_collections : List CollectionRec
  smart_collections : List CollectionRec
deriving DecidableEq

/-- `GET custom_collections.json?handle=h&limit=1` (src/app.py:257),
reduced to the returned id. -/
def find_custom_by_handle (s : StoreState) (h : String) : Option Int :=
  ((s.custom_collections.filter (fun c => c.handle == h)).head?).map CollectionRec.id

/-- `ShopifyClient._find_custom_collection` (src/app.py:240-244). -/
def find_custom_collection (s : StoreState) (title : String) : Option Int :=
  ((s.custom_collections.filter (fun c => c.title == title)).head?).map CollectionRec.id

/-- `ShopifyClient._find_smart_collection` (src/app.py:246-250). -/
def find_smart_collection (s : StoreState) (title : String) : Option Int :=
  ((s.smart_collections.filter (fun c => c.title == title)).head?).map CollectionRec.id

/-- The alias set of src/app.py:255. -/
def frontpageAliases : List String := ["homepage", "home page", "frontpage", "home"]

/-- Python truthiness of the `Optional[int]` results: `if cid:` is false both
for `None` and for the integer 0. -/
def pyTruthyInt : Option Int → Option Int
  | some c => if c = 0 then none else some c
  | none => none

/-- `ShopifyClient.ensure_collection` (src/app.py:252-272; the class body
contains the same method twice — src/app.py:157-177 is the first, identical
copy, so the effective binding has the same behaviour). `createdId` is the id
the `POST custom_collections.json` response would carry; the second component
is the title of the creation request when one is issued (`none` when nothing
is created). -/
def ensure_collection (s : StoreState) (createdId : Int) (title : String) :
    Int × Option String :=
  let special : Option Int :=
    if frontpageAliases.contains (pyLower (pyStrip title)) then
      find_custom_by_handle s "frontpage"
    else none
  match special with
  | some cid => (cid, none)
  | none =>
    match pyTruthyInt (find_smart_collection s title) with
    | some cid => (cid, none)
    | none =>
      match pyTruthyInt (find_custom_collection s title) with
      | some cid => (cid, none)
      | none => (createdId, some title)

/-- A remote product as the Admin API returns it; `vendor`, `product_type`
and `tags` are the values `template.get(...)` yields (possibly `null`), and
`options`/`variants` are `none` when the key is missing. -/
structure Product where
  id : Int
  title : String
  handle : String
  status : String
  body_html : Option String
  vendor : PyVal
  product_type : PyVal
  tags : PyVal
  options : Option (List PyDict)
  variants : Option (List PyDict)
deriving DecidableEq

/-- The `product_body` dict sent by `POST products.json`; an `Option` field
is `none` when the key is absent from the request. -/
structure ProductBody where
  title : String
  body_html : Option String
  images : List ImagePayload
  vendor : Option PyVal
  product_type : Option PyVal
  tags : Option PyVal
  options : Option (List PyDict)
  variants : Option (List PyDict)
deriving DecidableEq

/-- The FIRST `create_product` definition of the class body
(src/app.py:211-229): request construction including the template copy
(`if template:` is the `Option` match — a resolved template product is a
non-empty dict, hence truthy). This binding is SHADOWED by the second
definition of the same name later in the class body. -/
def create_product_v1 (title : String) (body_html : Option String)
    (images_payload : List ImagePayload) (template : Option Product) : ProductBody :=
  match template with
  | some t =>
    { title := title, body_html := body_html, images := images_payload,
      vendor := some t.vendor, product_type := some t.product_type,
      tags := some t.tags,
      options := some (scrub_options t.options),
      variants := some (scrub_variants t.variants) }
  | none =>
    { title := title, body_html := body_html, images := images_payload,
      vendor := none, product_type := none, tags := none,
      options := none, variants := none }

/-- The SECOND `create_product` definition (src/app.py:281-293). Python class
bodies bind names last-wins, so THIS is the effective
`ShopifyClient.create_product`: it has no `template` parameter and its request
carries only title, body and images. -/
def create_product (title : String) (body_html : Option String)
    (images_payload : List ImagePayload) : ProductBody :=
  { title := title, body_html := body_html, images := images_payload,
    vendor := none, product_type := none, tags := none,
    options := none, variants := none }

/-- A Python exception as the batch loop can observe it: an HTTP error
carrying the parsed JSON body of the response when it is parseable and the
`str(e)` message, or the `TypeError` a mismatched call raises. -/
inductive PyErr where
  | http : Option String → String → PyErr
  | typeError : PyErr
deriving DecidableEq

/-- The `detail` computed at src/app.py:416-419: the parsed response body,
or the dict containing `str(e)` when the body is not parseable. -/
inductive ErrDetail where
  | parsed : String → ErrDetail
  | generic : String → ErrDetail
deriving DecidableEq

/-- `detail = e.response.json()` with its `except` fallback. -/
def errDetail (body : Option String) (msg : String) : ErrDetail :=
  match body with
  | some b => ErrDetail.parsed b
  | none => ErrDetail.generic msg

/-- One row of the `results` table (src/app.py:407-428). `product_id = none`
and `handle = none` render as the dash sentinel; `errore` is present only in
error rows. -/
structure RunRecord where
  modello : String
  product_id : Option Int
  titolo : String
  handle : Option String
  status : String
  collezioni : String
  errore : Option ErrDetail
deriving DecidableEq

/-- The fixed title prefix concatenation of src/app.py:394. -/
def product_title (model_name : String) : String :=
  "SOLAR SCREEN® Pellicole Decorative - " ++ model_name

/-- The collections summary both record constructors store
(src/app.py:413 and :426). -/
def collectionsSummary : String := pyJoin ", " DEFAULT_COLLECTIONS

/-- The run configuration reaching the per-model loop: the sidebar flags and
the results of template resolution (src/app.py:362-375) and collection
resolution (src/app.py:377-387). -/
structure RunCfg where
  duplication_enabled : Bool
  copy_source_collections : Bool
  template_product : Option Product
  source_collection_ids : List Int
  collection_ids : List (String × Int)
deriving DecidableEq

/-- The body chosen at src/app.py:397. -/
def chosen_body (cfg : RunCfg) : Option String :=
  match cfg.duplication_enabled, cfg.template_product with
  | true, some t => t.body_html
  | _, _ => some DESCRIPTION_HTML

/-- The attachment loop of src/app.py:401-406 over one id list: the collect
creations attempted in order (as (product id, collection id) pairs) and the
first HTTP error raised, if any. -/
def attach_seq (attach : Int → Except PyErr Unit) (pid : Int) :
    List Int → List (Int × Int) × Option PyErr
  | [] => ([], none)
  | cid :: rest =>
    match attach cid with
    | Except.ok _ =>
      let r := attach_seq attach pid rest
      ((pid, cid) :: r.1, r.2)
    | Except.error e => ([(pid, cid)], some e)

/-- The body of one iteration of the batch loop (src/app.py:392-428): the
`try` block plus the `except requests.HTTPError` handler. `create_res` is the
outcome of the product-creation call, `attach` the outcome of each collect
creation. The result carries the appended record and the collects attempted;
a non-HTTP exception propagates (`Except.error`) and aborts the run. -/
def process_model (cfg : RunCfg) (create_res : Except PyErr Product)
    (attach : Int → Except PyErr Unit) (m : ModelGroup) :
    Except PyErr (RunRecord × List (Int × Int)) :=
  let model_name := m.model
  let title := product_title model_name
  match create_res with
  | Except.error (PyErr.http body msg) =>
    Except.ok
      ({ modello := model_name, product_id := none, titolo := title,
         handle := none, status := "ERRORE", collezioni := collectionsSummary,
         errore := some (errDetail body msg) }, [])
  | Except.error PyErr.typeError => Except.error PyErr.typeError
  | Except.ok product =>
    let pid := product.id
    let cids : List Int :=
      if cfg.duplication_enabled && cfg.copy_source_collections &&
          !cfg.source_collection_ids.isEmpty then
        cfg.source_collection_ids
      else cfg.collection_ids.map Prod.snd
    let attempted := attach_seq attach pid cids
    match attempted.2 with
    | some (PyErr.http body msg) =>
      Except.ok
        ({ modello := model_name, product_id := none, titolo := title,
           handle := none, status := "ERRORE", collezioni := collectionsSummary,
           errore := some (errDetail body msg) }, attempted.1)
    | some PyErr.typeError => Except.error PyErr.typeError
    | none =>
      Except.ok
        ({ modello := model_name, product_id := some pid, titolo := product.title,
           handle := some product.handle, status := product.status,
           collezioni := collectionsSummary, errore := none }, attempted.1)

/-- The batch loop of src/app.py:392-429, indexing models from `idx`. -/
def run_batch_go (cfg : RunCfg) (create_res : Nat → Except PyErr Product)
    (attach_res : Nat → Int → Except PyErr Unit) (idx : Nat) :
    List ModelGroup → Except PyErr (List RunRecord × List (Int × Int))
  | [] => Except.ok ([], [])
  | m :: rest =>
    match process_model cfg (create_res idx) (attach_res idx) m with
    | Except.error e => Except.error e
    | Except.ok (rec1, att1) =>
      match run_batch_go cfg create_res attach_res (idx + 1) rest with
      | Except.error e => Except.error e
      | Except.ok (recs, atts) => Except.ok (rec1 :: recs, att1 ++ atts)

/-- The whole batch loop: records accumulated across the models, together
with the collect creations attempted. An escaping non-HTTP exception aborts
the run, losing the table. -/
def run_batch (cfg : RunCfg) (create_res : Nat → Except PyErr Product)
    (attach_res : Nat → Int → Except PyErr Unit) (models : List ModelGroup) :
    Except PyErr (List RunRecord × List (Int × Int)) :=
  run_batch_go cfg create_res attach_res 0 models

/-- The batch loop as the EFFECTIVE code executes it: line 398 invokes
`client.create_product(title=…, body_html=…, images_payload=…, template=…)`,
but the effective binding of `create_product` (the second definition,
src/app.py:281) has no `template` parameter, so every invocation raises
`TypeError` before any HTTP request is made; the attachment endpoint is never
reached (its oracle value is irrelevant and set to the same error). -/
def run_batch_actual (cfg : RunCfg) (models : List ModelGroup) :
    Except PyErr (List RunRecord × List (Int × Int)) :=
  run_batch cfg (fun _ => Except.error PyErr.typeError)
    (fun _ _ => Except.error PyErr.typeError) models

/-- The loop of src/app.py:381-387: ensure each default collection in order,
collecting (title, id) pairs and the trace of titles passed to
`ensure_collection`; an HTTP failure stops the run (`st.stop`). -/
def ensure_each (ensure : String → Except PyErr Int) :
    List String → Except PyErr (List (String × Int) × List String)
  | [] => Except.ok ([], [])
  | t :: ts =>
    match ensure t with
    | Except.error e => Except.error e
    | Except.ok cid =>
      match ensure_each ensure ts with
      | Except.error e => Except.error e
      | Except.ok (ids, calls) => Except.ok ((t, cid) :: ids, t :: calls)

/-- Lines 378-387 of src/app.py: the default collections are resolved only
when NOT (duplication mode with collection copying); otherwise
`collection_ids` stays empty and `ensure_collection` is never called. -/
def resolve_default_collections (duplication_enabled copy_source_collections : Bool)
    (ensure : String → Except PyErr Int) :
    Except PyErr (List (String × Int) × List String) :=
  if !(duplication_enabled && copy_source_collections) then
    ensure_each ensure DEFAULT_COLLECTIONS
  else Except.ok ([], [])

/-- Collection resolution followed by the batch loop (src/app.py:377-429),
wired as in the source: the `collection_ids` dict the loop consumes is the one
`resolve_default_collections` produced. Returns the records, the collect
creations attempted, and the titles passed to `ensure_collection`. -/
def run_full (duplication copy : Bool) (template : Option Product)
    (source_ids : List Int) (ensure : String → Except PyErr Int)
    (create_res : Nat → Except PyErr Product)
    (attach_res : Nat → Int → Except PyErr Unit) (models : List ModelGroup) :
    Except PyErr (List RunRecord × List (Int × Int) × List String) :=
  match resolve_default_collections duplication copy ensure with
  | Except.error e => Except.error e
  | Except.ok (cids, calls) =>
    match run_batch ⟨duplication, copy, template, source_ids, cids⟩
        create_res attach_res models with
    | Except.error e => Except.error e
    | Except.ok (recs, atts) => Except.ok (recs, atts, calls)

/-- Sample archive entry: a zip member whose DOS timestamp decodes to month
0, so `datetime(*t)` raises `ValueError` inside `human_ts`. -/
def entryC3b : ZipEntry :=
  { filename := "M/b.jpg", is_dir := false,
    date_time := ⟨1980, 0, 1, 0, 0, 0⟩, content := [] }

/-- Sample archive entry with a valid 2020 timestamp. -/
def entryC3a : ZipEntry :=
  { filename := "M/a.jpg", is_dir := false,
    date_time := ⟨2020, 5, 1, 0, 0, 0⟩, content := [] }

/-- Sample entry of folder A, mtime 2021. -/
def entryA1 : ZipEntry := ⟨"A/one.jpg", false, ⟨2021, 1, 1, 0, 0, 0⟩, [77, 97, 110]⟩

/-- Sample entry of folder A, mtime 2020 (oldest). -/
def entryA2 : ZipEntry := ⟨"A/two.png", false, ⟨2020, 1, 1, 0, 0, 0⟩, [0]⟩

/-- Sample entry of folder A, mtime 2022 (newest, dropped by truncation). -/
def entryA3 : ZipEntry := ⟨"A/three.gif", false, ⟨2022, 1, 1, 0, 0, 0⟩, []⟩

/-- A sample archive: one folder with three images. -/
def sampleArchive : List ZipEntry := [entryA1, entryA2, entryA3]

/-- The model group the extractor produces for `sampleArchive`. -/
def sampleGroup : ModelGroup :=
  { model := "A",
    images := [⟨"AA==", "two.png", 1⟩, ⟨"TWFu", "one.jpg", 2⟩],
    warnings := [countWarning "A" 3] }

/-- A sample store: the storefront default collection (handle `frontpage`)
plus one further custom and one smart collection. -/
def storeA : StoreState :=
  { custom_collections := [⟨7, "Front Page", "frontpage"⟩, ⟨9, "Decorative", "decorative"⟩],
    smart_collections := [⟨11, "Pellicole per Vetri", "pellicole"⟩] }

/-- A sample `options` list of a template product, carrying a
`created_at` pair. -/
def sampleOptionDicts : Option (List PyDict) :=
  some [[("created_at", PyVal.str "2024"), ("name", PyVal.str "Size")]]

/-- A plain-mode run configuration with one resolved collection. -/
def cfgPlain : RunCfg :=
  { duplication_enabled := false, copy_source_collections := false,
    template_product := none, source_collection_ids := [],
    collection_ids := [("Homepage", 1)] }

/-- A sample extracted model. -/
def mgX : ModelGroup := ⟨"X", [], []⟩

/-- A second sample extracted model. -/
def mgY : ModelGroup := ⟨"Y", [], []⟩

/-- A sample product-creation response. -/
def prodW : Product :=
  ⟨101, "T", "h", "active", some "B", PyVal.null, PyVal.null, PyVal.null, none, none⟩

/-- Creation oracle that always succeeds with `prodW`. -/
def createOkW : Nat → Except PyErr Product := fun _ => Except.ok prodW

/-- Attachment oracle that always succeeds. -/
def attachOkW : Nat → Int → Except PyErr Unit := fun _ _ => Except.ok ()

/-- Collection-resolution oracle that fails on every call: a run that
succeeds against it cannot have called `ensure_collection`. -/
def ensureFailW : String → Except PyErr Int :=
  fun _ => Except.error (PyErr.http none "boom")

/- ===================== theorems ===================== -/

/-- `pySortBy` permutes its input. -/
lemma pySortBy_perm {α β : Type} [LinearOrder β] (key : α → β) (l : List α) :
    (pySortBy key l).Perm l := by
  unfold pySortBy
  have h1 : (List.insertionSort (pyKeyRel key) l.enum).Perm l.enum :=
    List.perm_insertionSort _ _
  have h2 := h1.map Prod.snd
  rwa [List.enum_map_snd] at h2

/-- `pySortBy` preserves length. -/
lemma pySortBy_length {α β : Type} [LinearOrder β] (key : α → β) (l : List α) :
    (pySortBy key l).length = l.length :=
  (pySortBy_perm key l).length_eq

/-- `pySortBy` preserves membership. -/
lemma pySortBy_mem {α β : Type} [LinearOrder β] (key : α → β) (l : List α) (a : α) :
    a ∈ pySortBy key l ↔ a ∈ l :=
  (pySortBy_perm key l).mem_iff

/-- The indices of `l.enum` increase strictly. -/
lemma enum_pairwise_fst_lt {α : Type} (l : List α) :
    l.enum.Pairwise (fun p q => p.1 < q.1) := by
  have h : List.Pairwise (fun a b => a < b) (l.enum.map Prod.fst) := by
    rw [List.enum_map_fst]; exact List.pairwise_lt_range _
  exact List.pairwise_map.mp h

/-- The value of an enum pair is a member of the underlying list. -/
lemma mem_enum_snd_mem {α : Type} {l : List α} {q : Nat × α} (h : q ∈ l.enum) :
    q.2 ∈ l :=
  List.getElem?_mem (List.mem_enum_iff_getElem?.mp h)

/-- The output of `pySortBy` is ascending in the key. -/
lemma pySortBy_pairwise_le {α β : Type} [LinearOrder β] (key : α → β) (l : List α) :
    (pySortBy key l).Pairwise (fun a b => key a ≤ key b) := by
  unfold pySortBy
  have hs : List.Sorted (pyKeyRel key) (List.insertionSort (pyKeyRel key) l.enum) :=
    List.sorted_insertionSort _ _
  rw [List.pairwise_map]
  refine hs.imp ?_
  intro p q h
  rcases h with h | ⟨h, _⟩
  · exact le_of_lt h
  · exact le_of_eq h

/-- Stability of `pySortBy` on a class of equal keys: the elements selected
by a predicate that forces one fixed key value keep their original relative
order, so filtering them out of the sorted list equals filtering the input. -/
lemma pySortBy_filter_eq {α β : Type} [LinearOrder β] (key : α → β) (p : α → Bool)
    (c : β) (l : List α) (hc : ∀ x ∈ l, p x = true → key x = c) :
    (pySortBy key l).filter p = l.filter p := by
  unfold pySortBy
  have hfil : (List.filter (fun q => p q.2) l.enum).Sublist
      (List.insertionSort (pyKeyRel key) l.enum) := by
    apply List.sublist_insertionSort
    · have h1 : l.enum.Pairwise (fun p2 q => p2.1 < q.1) := enum_pairwise_fst_lt l
      have h2 := h1.filter (fun q => p q.2)
      refine h2.imp_of_mem ?_
      intro a b ha hb hlt
      have hpa : p a.2 = true := (List.mem_filter.mp ha).2
      have hpb : p b.2 = true := (List.mem_filter.mp hb).2
      have hma : a.2 ∈ l := mem_enum_snd_mem (List.mem_filter.mp ha).1
      have hmb : b.2 ∈ l := mem_enum_snd_mem (List.mem_filter.mp hb).1
      exact Or.inr ⟨(hc _ hma hpa).trans (hc _ hmb hpb).symm, le_of_lt hlt⟩
    · exact List.filter_sublist _
  have hidem : (List.filter (fun q => p q.2) l.enum).filter (fun q => p q.2) =
      List.filter (fun q => p q.2) l.enum :=
    List.filter_eq_self.mpr (fun a ha => (List.mem_filter.mp ha).2)
  have hsub2 : (List.filter (fun q => p q.2) l.enum).Sublist
      ((List.insertionSort (pyKeyRel key) l.enum).filter (fun q => p q.2)) := by
    have := hfil.filter (fun q => p q.2)
    rwa [hidem] at this
  have hperm : ((List.insertionSort (pyKeyRel key) l.enum).filter
      (fun q => p q.2)).Perm (List.filter (fun q => p q.2) l.enum) :=
    (List.perm_insertionSort _ _).filter _
  have heq : List.filter (fun q => p q.2) l.enum =
      (List.insertionSort (pyKeyRel key) l.enum).filter (fun q => p q.2) :=
    hsub2.eq_of_length hperm.length_eq.symm
  have hmapL : List.filter p ((List.insertionSort (pyKeyRel key) l.enum).map Prod.snd) =
      ((List.insertionSort (pyKeyRel key) l.enum).filter (fun q => p q.2)).map Prod.snd :=
    List.filter_map Prod.snd _
  have hmapR : List.filter p (l.enum.map Prod.snd) =
      (l.enum.filter (fun q => p q.2)).map Prod.snd :=
    List.filter_map Prod.snd _
  rw [hmapL, ← heq, ← hmapR, List.enum_map_snd]

/-- A list that ascends in an integer key, each of whose elements either is
selected with key 0 or is unselected with positive key, is its selected
elements (in order) followed by its unselected ones. -/
lemma pairwise_key_partition {α : Type} (key : α → Int) (inv : α → Bool) :
    ∀ l : List α, l.Pairwise (fun a b => key a ≤ key b) →
      (∀ x ∈ l, (inv x = true → key x = 0) ∧ (inv x = false → 0 < key x)) →
      l = l.filter inv ++ l.filter (fun x => !inv x)
  | [], _, _ => rfl
  | x :: l, hp, hd => by
    rcases List.pairwise_cons.mp hp with ⟨hx, hl⟩
    by_cases hix : inv x = true
    · have ih := pairwise_key_partition key inv l hl
        (fun y hy => hd y (List.mem_cons_of_mem _ hy))
      rw [List.filter_cons_of_pos hix, List.filter_cons_of_neg (by simp [hix])]
      exact congrArg (x :: ·) ih
    · have hix2 : inv x = false := by
        cases h : inv x
        · rfl
        · exact absurd h hix
      have hx0 : 0 < key x := (hd x (List.mem_cons_self x l)).2 hix2
      have hinv_nil : l.filter inv = [] := by
        rw [List.filter_eq_nil_iff]
        intro y hy hyinv
        have h0 : key y = 0 := (hd y (List.mem_cons_of_mem _ hy)).1 hyinv
        have hle : key x ≤ key y := hx y hy
        omega
      have hall : l.filter (fun y => !inv y) = l := by
        rw [List.filter_eq_self]
        intro y hy
        cases h : inv y
        · rfl
        · have h0 : key y = 0 := (hd y (List.mem_cons_of_mem _ hy)).1 h
          have hle : key x ≤ key y := hx y hy
          omega
      rw [List.filter_cons_of_neg (by simp [hix2]), List.filter_cons_of_pos (by simp [hix2]),
        hinv_nil, hall]
      rfl

/-- A tuple rejected by the `datetime` constructor yields 0.0. -/
lemma human_ts_eq_zero {t : DateTime6} (h : ¬ datetime_ok t) : human_ts t = 0 := by
  unfold human_ts human_ts_attempt
  rw [if_neg h]

/-- The epoch value of every valid date of year at least 1980 is positive
(the year bound is what `zipfile`'s DOS date decoding guarantees). -/
lemma mktime_model_pos (t : DateTime6) (hok : datetime_ok t) (hy : 1980 ≤ t.year) :
    0 < mktime_model t := by
  obtain ⟨h1, h2, h3, h4, h5, h6, h7, h8, h9⟩ := hok
  have hpy : 1979 ≤ t.year - 1 := by omega
  have hdiv : (t.year - 1) / 100 ≤ (t.year - 1) / 4 :=
    Nat.div_le_div_left (by omega) (by omega)
  have hby : (t.year - 1) * 365 ≤ daysBeforeYear t.year := by
    show (t.year - 1) * 365 ≤
      (t.year - 1) * 365 + (t.year - 1) / 4 - (t.year - 1) / 100 + (t.year - 1) / 400
    omega
  have h365 : 1979 * 365 ≤ (t.year - 1) * 365 := Nat.mul_le_mul_right _ hpy
  have hord : 722336 ≤ toOrdinal t := by
    unfold toOrdinal
    omega
  unfold mktime_model epochOrdinal
  omega

/-- `human_ts` of a valid date of year at least 1980 is positive. -/
lemma human_ts_pos {t : DateTime6} (hok : datetime_ok t) (hy : 1980 ≤ t.year) :
    0 < human_ts t := by
  unfold human_ts human_ts_attempt
  rw [if_pos hok]
  exact mktime_model_pos t hok hy

/-- The `except` branch of the sort at src/app.py:86-88 is unreachable:
`human_ts` catches every exception itself, so `sorted` never raises and no
fallback warning is produced. -/
lemma sort_step_eq (infos : List ZipEntry) :
    sort_step infos = (pySortBy (fun i => human_ts i.date_time) infos, []) := by
  unfold sort_step sortedByKeyE
  have hall : (infos.all fun a =>
      ((fun i : ZipEntry => Except.ok (ε := Unit) (human_ts i.date_time)) a).isOk) = true :=
    List.all_eq_true.mpr (fun a _ => rfl)
  rw [if_pos hall]
  rfl

/-- Every entry stored in any group by `addToGroups` was already in a group
or is the newly added (image) entry. -/
lemma addToGroups_forall {P : ZipEntry → Prop} :
    ∀ (gs : List (String × List ZipEntry)) (f : String) (e : ZipEntry),
      (∀ p ∈ gs, ∀ x ∈ p.2, P x) → P e →
      ∀ p ∈ addToGroups gs f e, ∀ x ∈ p.2, P x
  | [], f, e, _, he => by
    intro p hp x hx
    simp only [addToGroups, List.mem_singleton] at hp
    subst hp
    simp only [List.mem_singleton] at hx
    subst hx
    exact he
  | (g, es) :: rest, f, e, hgs, he => by
    intro p hp x hx
    simp only [addToGroups] at hp
    by_cases hgf : g = f
    · rw [if_pos hgf] at hp
      rcases List.mem_cons.mp hp with hp1 | hp2
      · subst hp1
        rcases List.mem_append.mp hx with hx1 | hx2
        · exact hgs (g, es) (List.mem_cons_self _ _) x hx1
        · rw [List.mem_singleton] at hx2
          subst hx2
          exact he
      · exact hgs p (List.mem_cons_of_mem _ hp2) x hx
    · rw [if_neg hgf] at hp
      rcases List.mem_cons.mp hp with hp1 | hp2
      · subst hp1
        exact hgs (g, es) (List.mem_cons_self _ _) x hx
      · exact addToGroups_forall rest f e
          (fun q hq => hgs q (List.mem_cons_of_mem _ hq)) he p hp2 x hx

/-- Invariant of the grouping fold: every grouped entry is an image entry. -/
lemma groupFolders_go_forall :
    ∀ (entries : List ZipEntry) (gs : List (String × List ZipEntry)),
      (∀ p ∈ gs, ∀ x ∈ p.2, is_image x.filename = true) →
      ∀ p ∈ entries.foldl
          (fun gs info =>
            if info.is_dir then gs
            else if !is_image info.filename then gs
            else
              let parts := pySplitSlash info.filename
              if parts.length < 2 then gs
              else addToGroups gs (pyStrip (parts.headD "")) info)
          gs,
        ∀ x ∈ p.2, is_image x.filename = true
  | [], gs, hgs => hgs
  | info :: entries, gs, hgs => by
    simp only [List.foldl_cons]
    by_cases hd : info.is_dir
    · rw [if_pos hd]
      exact groupFolders_go_forall entries gs hgs
    · rw [if_neg hd]
      by_cases himg : is_image info.filename = true
      · rw [if_neg (by simp [himg])]
        by_cases hlen : (pySplitSlash info.filename).length < 2
        · rw [if_pos hlen]
          exact groupFolders_go_forall entries gs hgs
        · rw [if_neg hlen]
          exact groupFolders_go_forall entries _
            (addToGroups_forall gs _ info hgs himg)
      · rw [if_pos (by simp [himg])]
        exact groupFolders_go_forall entries gs hgs

/-- Every entry of every group `groupFolders` builds is an image entry. -/
lemma groupFolders_forall (entries : List ZipEntry) :
    ∀ p ∈ groupFolders entries, ∀ x ∈ p.2, is_image x.filename = true := by
  unfold groupFolders
  exact groupFolders_go_forall entries [] (by intro p hp; cases hp)

/-- `processGroup` components, read off the definition. -/
lemma processGroup_model (f : String) (infos : List ZipEntry) :
    (processGroup f infos).model = f := rfl

/-- The images of a processed group are the payload built over the resolved
(sorted and truncated) entries. -/
lemma processGroup_images (f : String) (infos : List ZipEntry) :
    (processGroup f infos).images = buildImagesPayload (resolvedEntries infos) := rfl

/-- Membership in `parse_zip_models` comes from a group of `groupFolders`. -/
lemma parse_mem_elim {entries : List ZipEntry} {m : ModelGroup}
    (hm : m ∈ parse_zip_models entries) :
    ∃ infos, (m.model, infos) ∈ groupFolders entries ∧
      m = processGroup m.model infos := by
  unfold parse_zip_models at hm
  rcases List.mem_map.mp hm with ⟨p, hp, heq⟩
  have hmodel : m.model = p.1 := by rw [← heq]; rfl
  refine ⟨p.2, ?_, ?_⟩
  · rw [hmodel]
    simpa using hp
  · rw [hmodel, ← heq]

/-- Length of the built payload list. -/
lemma buildImagesPayload_length (es : List ZipEntry) :
    (buildImagesPayload es).length = es.length := by
  simp [buildImagesPayload]

/-- The positions in an `enumFrom`, each incremented, are a range. -/
lemma map_fst_succ_enumFrom {α : Type} :
    ∀ (l : List α) (n : Nat),
      (List.enumFrom n l).map (fun p => p.1 + 1) = List.range' (n + 1) l.length
  | [], _ => rfl
  | a :: l, n => by
    simp only [List.enumFrom, List.map_cons, List.length_cons, List.range'_succ]
    exact congrArg (fun t => (n + 1) :: t) (map_fst_succ_enumFrom l (n + 1))

/-- The built payload positions are exactly 1..k. -/
lemma buildImagesPayload_positions (es : List ZipEntry) :
    (buildImagesPayload es).map ImagePayload.position = List.range' 1 es.length := by
  unfold buildImagesPayload
  rw [List.map_map]
  have : (ImagePayload.position ∘ fun p : Nat × ZipEntry =>
      ({ attachment := b64encode p.2.content, filename := basename p.2.filename,
         position := p.1 + 1 } : ImagePayload)) = fun p => p.1 + 1 := rfl
  rw [this, List.enum_eq_enumFrom, map_fst_succ_enumFrom]

/-- The j-th built payload is the payload of the j-th resolved entry. -/
lemma buildImagesPayload_get (es : List ZipEntry) (j : Nat)
    (hj : j < (buildImagesPayload es).length) (hj2 : j < es.length) :
    (buildImagesPayload es).get ⟨j, hj⟩ =
      { attachment := b64encode (es.get ⟨j, hj2⟩).content,
        filename := basename (es.get ⟨j, hj2⟩).filename,
        position := j + 1 } := by
  unfold buildImagesPayload
  simp [List.enum_eq_enumFrom, List.getElem_enumFrom]

/-- Claim C1 (code_bug evidence). The class body of `ShopifyClient` binds
`create_product` twice; Python resolves the name to the LAST binding. The
first definition (src/app.py:211-229) satisfies the claim: its request always
carries the given title, body and images and, when a template is supplied,
the template's vendor, product type, tags and scrubbed options and variants.
The effective second binding (src/app.py:281-293) has no `template`
parameter — the keyword call at src/app.py:398 raises `TypeError` — and its
request never carries any template field. -/
theorem C1_create_product_template_shadowed :
    (∀ (t : String) (b : Option String) (imgs : List ImagePayload) (tpl : Product),
      (create_product_v1 t b imgs (some tpl)).title = t ∧
      (create_product_v1 t b imgs (some tpl)).body_html = b ∧
      (create_product_v1 t b imgs (some tpl)).images = imgs ∧
      (create_product_v1 t b imgs (some tpl)).vendor = some tpl.vendor ∧
      (create_product_v1 t b imgs (some tpl)).product_type = some tpl.product_type ∧
      (create_product_v1 t b imgs (some tpl)).tags = some tpl.tags ∧
      (create_product_v1 t b imgs (some tpl)).options = some (scrub_options tpl.options) ∧
      (create_product_v1 t b imgs (some tpl)).variants = some (scrub_variants tpl.variants)) ∧
    (∀ (t : String) (b : Option String) (imgs : List ImagePayload),
      create_product t b imgs = create_product_v1 t b imgs none ∧
      (create_product t b imgs).vendor = none ∧
      (create_product t b imgs).product_type = none ∧
      (create_product t b imgs).tags = none ∧
      (create_product t b imgs).options = none ∧
      (create_product t b imgs).variants = none) :=
  ⟨fun _ _ _ _ => ⟨rfl, rfl, rfl, rfl, rfl, rfl, rfl, rfl⟩,
   fun _ _ _ => ⟨rfl, rfl, rfl, rfl, rfl, rfl⟩⟩

/-- Claim C2 (code_bug evidence). With the effective `create_product`
binding, the keyword call of the batch loop raises `TypeError` for every
model; `except requests.HTTPError` (src/app.py:415) does not catch it, so a
two-model run aborts at the first model with zero result records, instead of
emitting one record per model. -/
theorem C2_run_aborts_with_typeerror :
    run_batch_actual cfgPlain [mgX, mgY] = Except.error PyErr.typeError := rfl

/-- Claim C3 (code_bug evidence). In an archive whose folder M holds
`M/b.jpg` with an unconvertible timestamp (month 0, so `datetime(*t)`
raises) and `M/a.jpg` with a valid 2020 timestamp, the conversion failure is
swallowed inside `human_ts` (which returns 0.0), so the group is sorted with
`b.jpg` FIRST (key 0.0) and NO timestamps-unavailable warning is recorded —
not in ascending filename order (`a.jpg` first) with the warning, as the
claim states. -/
theorem C3_fallback_branch_dead_eval :
    parse_zip_models [entryC3b, entryC3a] =
      [{ model := "M",
         images := [⟨"", "b.jpg", 1⟩, ⟨"", "a.jpg", 2⟩],
         warnings := [] }] := by decide

/-- Claim C5 (counterexample). An option dict carrying a `created_at` pair:
the code's `_scrub_options` PRESERVES it, while scrubbing exactly the
identity fields listed in section 4.2 (which include the created/updated
timestamps) would remove it. -/
theorem C5_option_scrub_keeps_timestamps :
    scrub_options sampleOptionDicts ≠ scrub_options_speced sampleOptionDicts ∧
    scrub_options sampleOptionDicts =
      [[("created_at", PyVal.str "2024"), ("name", PyVal.str "Size")]] ∧
    scrub_options_speced sampleOptionDicts = [[("name", PyVal.str "Size")]] := by
  refine ⟨?_, ?_, ?_⟩ <;> decide

/-- Claim C5 (amended). Variant scrubbing removes exactly the seven keys
id, product_id, admin_graphql_api_id, position, created_at, updated_at,
image_id; option scrubbing removes exactly the four keys id, product_id,
admin_graphql_api_id, position (NOT the timestamps); every other key-value
pair of every variant and option is preserved verbatim and in order, and a
missing list is treated as empty. -/
theorem C5_scrub_exact_fields :
    (∀ d : PyDict,
      (∀ kv, kv ∈ scrubDict variantDropKeys d ↔
        kv ∈ d ∧ variantDropKeys.contains kv.1 = false) ∧
      (scrubDict variantDropKeys d).Sublist d) ∧
    (∀ d : PyDict,
      (∀ kv, kv ∈ scrubDict optionDropKeys d ↔
        kv ∈ d ∧ optionDropKeys.contains kv.1 = false) ∧
      (scrubDict optionDropKeys d).Sublist d) ∧
    (∀ vs, scrub_variants (some vs) = vs.map (scrubDict variantDropKeys)) ∧
    (∀ os, scrub_options (some os) = os.map (scrubDict optionDropKeys)) ∧
    scrub_variants none = [] ∧ scrub_options none = [] := by
  refine ⟨?_, ?_, fun _ => rfl, fun _ => rfl, rfl, rfl⟩ <;>
  · intro d
    constructor
    · intro kv
      simp [scrubDict, List.mem_filter]
    · exact List.filter_sublist d

/-- Witness for the amended claim C5 at a concrete option dict. -/
theorem C5_scrub_exact_fields_witness :
    ("name", PyVal.str "Size") ∈ scrubDict optionDropKeys
        [("created_at", PyVal.str "2024"), ("name", PyVal.str "Size")] ↔
      (("name", PyVal.str "Size") ∈
        ([("created_at", PyVal.str "2024"), ("name", PyVal.str "Size")] : PyDict) ∧
        optionDropKeys.contains "name" = false) :=
  (C5_scrub_exact_fields.2.1 [("created_at", PyVal.str "2024"), ("name", PyVal.str "Size")]).1
    ("name", PyVal.str "Size")

/-- A found custom-collection id is the id of a stored custom collection. -/
lemma find_custom_mem {s : StoreState} {title : String} {cid : Int}
    (h : find_custom_collection s title = some cid) :
    ∃ c ∈ s.custom_collections, c.id = cid := by
  unfold find_custom_collection at h
  cases hh : (s.custom_collections.filter (fun c => c.title == title)).head? with
  | none => rw [hh] at h; cases h
  | some c =>
    rw [hh] at h
    injection h with h1
    have hmem : c ∈ s.custom_collections.filter (fun c => c.title == title) :=
      List.mem_of_mem_head? (by rw [hh]; rfl)
    exact ⟨c, (List.mem_filter.mp hmem).1, h1⟩

/-- A found smart-collection id is the id of a stored smart collection. -/
lemma find_smart_mem {s : StoreState} {title : String} {cid : Int}
    (h : find_smart_collection s title = some cid) :
    ∃ c ∈ s.smart_collections, c.id = cid := by
  unfold find_smart_collection at h
  cases hh : (s.smart_collections.filter (fun c => c.title == title)).head? with
  | none => rw [hh] at h; cases h
  | some c =>
    rw [hh] at h
    injection h with h1
    have hmem : c ∈ s.smart_collections.filter (fun c => c.title == title) :=
      List.mem_of_mem_head? (by rw [hh]; rfl)
    exact ⟨c, (List.mem_filter.mp hmem).1, h1⟩

/-- Under nonzero store ids, `if cid:` does not discard a found custom id. -/
lemma pyTruthy_find_custom {s : StoreState} {title : String} {cid : Int}
    (hc : ∀ c ∈ s.custom_collections, c.id ≠ 0)
    (h : find_custom_collection s title = some cid) :
    pyTruthyInt (find_custom_collection s title) = some cid := by
  obtain ⟨c, hmem, hid⟩ := find_custom_mem h
  unfold pyTruthyInt
  rw [h]
  show (if cid = 0 then none else some cid) = some cid
  rw [if_neg (fun h0 => hc c hmem (hid.trans h0))]

/-- Under nonzero store ids, `if cid:` does not discard a found smart id. -/
lemma pyTruthy_find_smart {s : StoreState} {title : String} {cid : Int}
    (hs : ∀ c ∈ s.smart_collections, c.id ≠ 0)
    (h : find_smart_collection s title = some cid) :
    pyTruthyInt (find_smart_collection s title) = some cid := by
  obtain ⟨c, hmem, hid⟩ := find_smart_mem h
  unfold pyTruthyInt
  rw [h]
  show (if cid = 0 then none else some cid) = some cid
  rw [if_neg (fun h0 => hs c hmem (hid.trans h0))]

/-- Claim C4: for a title whose trimmed lower-cased form is a storefront
alias, `ensure_collection` first looks the custom collections up by handle
`frontpage` and, when a hit exists, returns its id creating nothing; any
title not resolved by that path is probed against the smart collections by
title, then the custom collections by title, and only when both probes are
absent is a creation request with exactly that title issued, whose response
id is returned. (Store ids are assumed nonzero, as Shopify ids are: the code
tests the probe results for Python truthiness, so a 0 id would be treated as
absent.) -/
theorem C4_ensure_collection_resolution (s : StoreState) (createdId : Int)
    (title : String)
    (hc : ∀ c ∈ s.custom_collections, c.id ≠ 0)
    (hs : ∀ c ∈ s.smart_collections, c.id ≠ 0) :
    (∀ cid, frontpageAliases.contains (pyLower (pyStrip title)) = true →
      find_custom_by_handle s "frontpage" = some cid →
      ensure_collection s createdId title = (cid, none)) ∧
    ((frontpageAliases.contains (pyLower (pyStrip title)) = false ∨
        find_custom_by_handle s "frontpage" = none) →
      (∀ cid, find_smart_collection s title = some cid →
        ensure_collection s createdId title = (cid, none)) ∧
      (find_smart_collection s title = none →
        ∀ cid, find_custom_collection s title = some cid →
        ensure_collection s createdId title = (cid, none)) ∧
      (find_smart_collection s title = none →
        find_custom_collection s title = none →
        ensure_collection s createdId title = (createdId, some title))) := by
  constructor
  · intro cid hal hh
    unfold ensure_collection
    rw [hal]
    simp only [if_true]
    rw [hh]
  · intro halias
    have hspecial :
        (if frontpageAliases.contains (pyLower (pyStrip title)) = true then
          find_custom_by_handle s "frontpage" else none) = none := by
      rcases halias with hal | hnone
      · rw [hal]
        simp
      · rw [hnone]
        simp
    refine ⟨?_, ?_, ?_⟩
    · intro cid hsm
      unfold ensure_collection
      rw [hspecial]
      rw [pyTruthy_find_smart hs hsm]
    · intro hsm cid hcu
      unfold ensure_collection
      rw [hspecial]
      have hnone : pyTruthyInt (find_smart_collection s title) = none := by
        rw [hsm]; rfl
      rw [hnone, pyTruthy_find_custom hc hcu]
    · intro hsm hcu
      unfold ensure_collection
      rw [hspecial]
      have hn1 : pyTruthyInt (find_smart_collection s title) = none := by
        rw [hsm]; rfl
      have hn2 : pyTruthyInt (find_custom_collection s title) = none := by
        rw [hcu]; rfl
      rw [hn1, hn2]

/-- Witness for claim C4 on a concrete store: the Homepage alias resolves to
the `frontpage`-handle collection, a smart collection is found by title, and
an unknown title leads to creation with that very title. -/
theorem C4_ensure_collection_witness :
    ensure_collection storeA 99 "Homepage" = (7, none) ∧
    ensure_collection storeA 99 "Pellicole per Vetri" = (11, none) ∧
    ensure_collection storeA 99 "Nuova" = (99, some "Nuova") :=
  ⟨(C4_ensure_collection_resolution storeA 99 "Homepage" (by decide) (by decide)).1
      7 (by decide) (by decide),
   ((C4_ensure_collection_resolution storeA 99 "Pellicole per Vetri" (by decide)
      (by decide)).2 (Or.inl (by decide))).1 11 (by decide),
   ((C4_ensure_collection_resolution storeA 99 "Nuova" (by decide) (by decide)).2
      (Or.inl (by decide))).2.2 (by decide) (by decide)⟩

/-- On a group all of whose entries are images (as `groupFolders`
guarantees), the re-filter of src/app.py:91 is the identity on the sorted
list. -/
lemma processGroup_filter_eq (infos : List ZipEntry)
    (himg : ∀ e ∈ infos, is_image e.filename = true) :
    (sort_step infos).1.filter (fun i => is_image i.filename) =
      pySortBy (fun i => human_ts i.date_time) infos := by
  rw [sort_step_eq]
  exact List.filter_eq_self.mpr
    (fun a ha => himg a ((pySortBy_mem _ _ _).mp ha))

/-- Claim C6: every emitted model group keeps at most 2 images (hence
between 0 and 2); its raw image count is the size of its folder's group, and
whenever that count is not 2, the warning quoting the actual count is
recorded and only the first 2 sorted entries are kept; a group with fewer
than 2 images is emitted as-is — the extractor is total, there is no error
path. -/
theorem C6_group_image_bounds (entries : List ZipEntry) (m : ModelGroup)
    (hm : m ∈ parse_zip_models entries) :
    m.images.length ≤ 2 ∧
    ∃ infos, (m.model, infos) ∈ groupFolders entries ∧
      m.images.length = min infos.length 2 ∧
      (infos.length ≠ 2 → countWarning m.model infos.length ∈ m.warnings) ∧
      (infos.length = 2 → m.warnings = []) ∧
      (infos.length < 2 → m.images.length = infos.length) := by
  obtain ⟨infos, hgrp, heq⟩ := parse_mem_elim hm
  have himg : ∀ e ∈ infos, is_image e.filename = true :=
    groupFolders_forall entries (m.model, infos) hgrp
  have hfe := processGroup_filter_eq infos himg
  have hlen : ((sort_step infos).1.filter (fun i => is_image i.filename)).length =
      infos.length := by
    rw [hfe, pySortBy_length]
  have himages : m.images = buildImagesPayload (resolvedEntries infos) := by
    conv_lhs => rw [heq]
    exact processGroup_images m.model infos
  have hres : (resolvedEntries infos).length = min infos.length 2 := by
    unfold resolvedEntries
    by_cases h2 : infos.length = 2
    · rw [if_neg (by rw [hlen]; omega), hlen]
      omega
    · rw [if_pos (by rw [hlen]; omega), List.length_take, hlen]
      omega
  have hlen2 : m.images.length = min infos.length 2 := by
    rw [himages, buildImagesPayload_length, hres]
  have hsnd : (sort_step infos).2 = [] := by rw [sort_step_eq]
  have hwarn : m.warnings =
      (if infos.length ≠ 2 then [countWarning m.model infos.length] else []) := by
    conv_lhs => rw [heq]
    show (if ((sort_step infos).1.filter (fun i => is_image i.filename)).length ≠ 2 then
        (sort_step infos).2 ++
          [countWarning m.model
            ((sort_step infos).1.filter (fun i => is_image i.filename)).length]
      else (sort_step infos).2) = _
    rw [hlen, hsnd]
    by_cases h2 : infos.length = 2
    · rw [if_neg (by omega), if_neg (by omega)]
    · rw [if_pos h2, if_pos h2, List.nil_append]
  refine ⟨by omega, infos, hgrp, hlen2, ?_, ?_, by omega⟩
  · intro h2
    rw [hwarn, if_pos h2]
    exact List.mem_singleton.mpr rfl
  · intro h2
    rw [hwarn, if_neg (by omega)]

/-- Witness for claim C6: the sample three-image folder is truncated to two
images. -/
theorem C6_group_image_bounds_witness : sampleGroup.images.length ≤ 2 :=
  (C6_group_image_bounds sampleArchive sampleGroup (by decide)).1

/-- Index access into the built payload list, without bound side
conditions. -/
lemma buildImagesPayload_getElem? (es : List ZipEntry) (j : Nat) :
    (buildImagesPayload es)[j]? = es[j]?.map (fun e =>
      ({ attachment := b64encode e.content, filename := basename e.filename,
         position := j + 1 } : ImagePayload)) := by
  unfold buildImagesPayload
  rw [List.getElem?_map, List.enum_eq_enumFrom, List.getElem?_enumFrom]
  cases es[j]? <;> simp

/-- Claim C7: within an emitted group the position fields are exactly the
contiguous sequence 1..k in the resolved order, and the j-th payload's
filename is the basename of the j-th resolved entry's path while its content
is the base64 encoding of that entry's raw bytes. -/
theorem C7_payload_positions_and_content (entries : List ZipEntry)
    (m : ModelGroup) (hm : m ∈ parse_zip_models entries) :
    m.images.map ImagePayload.position = List.range' 1 m.images.length ∧
    ∃ infos, (m.model, infos) ∈ groupFolders entries ∧
      m.images.length = (resolvedEntries infos).length ∧
      ∀ j : Nat,
        (m.images[j]?).map ImagePayload.filename =
          ((resolvedEntries infos)[j]?).map (fun e => basename e.filename) ∧
        (m.images[j]?).map ImagePayload.attachment =
          ((resolvedEntries infos)[j]?).map (fun e => b64encode e.content) ∧
        (m.images[j]?).map ImagePayload.position =
          ((resolvedEntries infos)[j]?).map (fun _ => j + 1) := by
  obtain ⟨infos, hgrp, heq⟩ := parse_mem_elim hm
  have himages : m.images = buildImagesPayload (resolvedEntries infos) := by
    conv_lhs => rw [heq]
    exact processGroup_images m.model infos
  constructor
  · rw [himages, buildImagesPayload_positions, buildImagesPayload_length]
  · refine ⟨infos, hgrp, by rw [himages, buildImagesPayload_length], ?_⟩
    intro j
    rw [himages, buildImagesPayload_getElem?]
    cases (resolvedEntries infos)[j]? <;> simp

/-- Witness for claim C7 on the sample archive: the group's positions are
the contiguous sequence starting at 1. -/
theorem C7_payload_positions_witness :
    sampleGroup.images.map ImagePayload.position =
      List.range' 1 sampleGroup.images.length :=
  (C7_payload_positions_and_content sampleArchive sampleGroup (by decide)).1

/-- Claim C8: `human_ts` is total and yields 0.0 exactly when the date-time
tuple is rejected; consequently the `sorted` call never raises, the `except`
branch (filename order plus warning) is unreachable — the only warning any
group can carry is the image-count warning — and, in any group whose valid
timestamps have year at least 1980 (which `zipfile`'s DOS date decoding
guarantees), the entries with unconvertible timestamps sort FIRST, keeping
their original enumeration order, with no warning recorded. -/
theorem C8_human_ts_total_fallback_unreachable :
    (∀ t : DateTime6, ¬ datetime_ok t → human_ts t = 0) ∧
    (∀ infos : List ZipEntry,
      sort_step infos = (pySortBy (fun i => human_ts i.date_time) infos, [])) ∧
    (∀ entries : List ZipEntry, ∀ m ∈ parse_zip_models entries,
      m.warnings = [] ∨ ∃ n, m.warnings = [countWarning m.model n]) ∧
    (∀ infos : List ZipEntry,
      (∀ e ∈ infos, datetime_ok e.date_time → 1980 ≤ e.date_time.year) →
      (pySortBy (fun i => human_ts i.date_time) infos).filter
          (fun e => !(decide (datetime_ok e.date_time))) =
        infos.filter (fun e => !(decide (datetime_ok e.date_time))) ∧
      pySortBy (fun i => human_ts i.date_time) infos =
        infos.filter (fun e => !(decide (datetime_ok e.date_time))) ++
          (pySortBy (fun i => human_ts i.date_time) infos).filter
            (fun e => decide (datetime_ok e.date_time))) := by
  have hzero : ∀ e : ZipEntry, (!(decide (datetime_ok e.date_time))) = true →
      human_ts e.date_time = 0 := by
    intro e he
    exact human_ts_eq_zero (by simpa using he)
  refine ⟨fun t ht => human_ts_eq_zero ht, sort_step_eq, ?_, ?_⟩
  · intro entries m hm
    obtain ⟨infos, _, heq⟩ := parse_mem_elim hm
    have hsnd : (sort_step infos).2 = [] := by rw [sort_step_eq]
    have hwarn : m.warnings =
        (if ((sort_step infos).1.filter (fun i => is_image i.filename)).length ≠ 2 then
          (sort_step infos).2 ++
            [countWarning m.model
              ((sort_step infos).1.filter (fun i => is_image i.filename)).length]
        else (sort_step infos).2) := by
      conv_lhs => rw [heq]
      rfl
    rw [hwarn, hsnd]
    by_cases h2 :
        ((sort_step infos).1.filter (fun i => is_image i.filename)).length ≠ 2
    · rw [if_pos h2, List.nil_append]
      exact Or.inr ⟨_, rfl⟩
    · rw [if_neg h2]
      exact Or.inl rfl
  · intro infos hy
    have hstable := pySortBy_filter_eq (fun i : ZipEntry => human_ts i.date_time)
      (fun e => !(decide (datetime_ok e.date_time))) 0 infos
      (fun x _ hx => hzero x hx)
    refine ⟨hstable, ?_⟩
    have hsplit := pairwise_key_partition (fun i : ZipEntry => human_ts i.date_time)
      (fun e => !(decide (datetime_ok e.date_time)))
      (pySortBy (fun i => human_ts i.date_time) infos)
      (pySortBy_pairwise_le _ _)
      (by
        intro x hx
        have hxm : x ∈ infos := (pySortBy_mem _ _ _).mp hx
        constructor
        · exact fun h => hzero x h
        · intro h
          have hok : datetime_ok x.date_time := by simpa using h
          exact human_ts_pos hok (hy x hxm hok))
    have hnotnot : (fun x : ZipEntry => !(!(decide (datetime_ok x.date_time)))) =
        (fun x : ZipEntry => decide (datetime_ok x.date_time)) :=
      funext (fun x => Bool.not_not _)
    rw [hnotnot] at hsplit
    rw [← hstable]
    exact hsplit

/-- Witness for claim C8 on the concrete two-entry group: the invalid-stamp
entry keeps its place in front, as filtering commutes with the sort. -/
theorem C8_human_ts_total_witness :
    (pySortBy (fun i => human_ts i.date_time) [entryC3b, entryC3a]).filter
        (fun e => !(decide (datetime_ok e.date_time))) =
      [entryC3b, entryC3a].filter (fun e => !(decide (datetime_ok e.date_time))) :=
  (C8_human_ts_total_fallback_unreachable.2.2.2 [entryC3b, entryC3a] (by decide)).1

/-- Every record `process_model` emits carries the fixed collections
summary — both record constructors of the loop store it. -/
lemma process_model_summary {cfg : RunCfg} {cr : Except PyErr Product}
    {att : Int → Except PyErr Unit} {m : ModelGroup}
    {pr : RunRecord × List (Int × Int)}
    (h : process_model cfg cr att m = Except.ok pr) :
    pr.1.collezioni = collectionsSummary := by
  simp only [process_model] at h
  split at h
  · injection h with h1
    rw [← h1]
  · exact Except.noConfusion h
  · split at h
    · injection h with h1
      rw [← h1]
    · exact Except.noConfusion h
    · injection h with h1
      rw [← h1]

/-- Every record the batch loop accumulates carries the fixed collections
summary. -/
lemma run_batch_go_summary (cfg : RunCfg) (cr : Nat → Except PyErr Product)
    (att : Nat → Int → Except PyErr Unit) :
    ∀ (models : List ModelGroup) (idx : Nat)
      (out : List RunRecord × List (Int × Int)),
      run_batch_go cfg cr att idx models = Except.ok out →
      ∀ r ∈ out.1, r.collezioni = collectionsSummary
  | [], idx, out, h => by
    intro r hr
    unfold run_batch_go at h
    injection h with h1
    rw [← h1] at hr
    exact absurd hr (List.not_mem_nil r)
  | m :: rest, idx, out, h => by
    intro r hr
    unfold run_batch_go at h
    cases hpm : process_model cfg (cr idx) (att idx) m with
    | error e => rw [hpm] at h; exact Except.noConfusion h
    | ok pr =>
      obtain ⟨rec1, att1⟩ := pr
      rw [hpm] at h
      cases hgo : run_batch_go cfg cr att (idx + 1) rest with
      | error e => rw [hgo] at h; exact Except.noConfusion h
      | ok out2 =>
        obtain ⟨recs, atts⟩ := out2
        rw [hgo] at h
        have h2 : Except.ok (ε := PyErr) (rec1 :: recs, att1 ++ atts) = Except.ok out := h
        injection h2 with h1
        rw [← h1] at hr
        rcases List.mem_cons.mp hr with hr1 | hr2
        · subst hr1
          exact process_model_summary hpm
        · exact run_batch_go_summary cfg cr att rest (idx + 1) (recs, atts) hgo r hr2

/-- Claim C9: every result record a run emits — success or error, whatever
the mode and whatever the collections the products were actually attached
to — stores as its collections summary the comma-joined fixed default
collection title list. -/
theorem C9_collections_summary_fixed (cfg : RunCfg)
    (create_res : Nat → Except PyErr Product)
    (attach_res : Nat → Int → Except PyErr Unit) (models : List ModelGroup)
    (out : List RunRecord × List (Int × Int))
    (hrun : run_batch cfg create_res attach_res models = Except.ok out)
    (r : RunRecord) (hr : r ∈ out.1) :
    r.collezioni = pyJoin ", " DEFAULT_COLLECTIONS ∧
    r.collezioni = "Homepage, Pellicole per Vetri, Decorative" := by
  have h := run_batch_go_summary cfg create_res attach_res models 0 out hrun r hr
  exact ⟨h, by rw [h]; rfl⟩

/-- Witness for claim C9: a concrete one-model run in plain mode. -/
theorem C9_collections_summary_witness :
    ({ modello := "X", product_id := some 101, titolo := "T", handle := some "h",
       status := "active", collezioni := collectionsSummary,
       errore := none } : RunRecord).collezioni = pyJoin ", " DEFAULT_COLLECTIONS ∧
    ({ modello := "X", product_id := some 101, titolo := "T", handle := some "h",
       status := "active", collezioni := collectionsSummary,
       errore := none } : RunRecord).collezioni =
      "Homepage, Pellicole per Vetri, Decorative" :=
  C9_collections_summary_fixed cfgPlain createOkW attachOkW [mgX]
    ([{ modello := "X", product_id := some 101, titolo := "T", handle := some "h",
        status := "active", collezioni := collectionsSummary, errore := none }],
      [(101, 1)])
    (by rfl)
    { modello := "X", product_id := some 101, titolo := "T", handle := some "h",
      status := "active", collezioni := collectionsSummary, errore := none }
    (by decide)

/-- In duplication-with-copied-collections mode with an empty snapshot, a
processed model attempts no collect creation: the truthiness test on the
empty snapshot falls through to the (empty) default-collection dict. -/
lemma process_model_atts_nil {cfg : RunCfg}
    (hdup : cfg.duplication_enabled = true)
    (hcopy : cfg.copy_source_collections = true)
    (hsrc : cfg.source_collection_ids = [])
    (hcol : cfg.collection_ids = [])
    {cr : Except PyErr Product} {att : Int → Except PyErr Unit} {m : ModelGroup}
    {pr : RunRecord × List (Int × Int)}
    (h : process_model cfg cr att m = Except.ok pr) :
    pr.2 = [] := by
  simp only [process_model, hsrc, hcol, List.isEmpty_nil, Bool.not_true,
    Bool.and_false, List.map_nil, attach_seq] at h
  split at h
  · injection h with h1
    rw [← h1]
  · exact Except.noConfusion h
  · injection h with h1
    rw [← h1]

/-- In duplication-with-copied-collections mode with an empty snapshot, the
whole batch loop attempts no collect creation. -/
lemma run_batch_go_atts_nil {cfg : RunCfg}
    (hdup : cfg.duplication_enabled = true)
    (hcopy : cfg.copy_source_collections = true)
    (hsrc : cfg.source_collection_ids = [])
    (hcol : cfg.collection_ids = [])
    (cr : Nat → Except PyErr Product) (att : Nat → Int → Except PyErr Unit) :
    ∀ (models : List ModelGroup) (idx : Nat)
      (out : List RunRecord × List (Int × Int)),
      run_batch_go cfg cr att idx models = Except.ok out → out.2 = []
  | [], idx, out, h => by
    unfold run_batch_go at h
    injection h with h1
    rw [← h1]
  | m :: rest, idx, out, h => by
    unfold run_batch_go at h
    cases hpm : process_model cfg (cr idx) (att idx) m with
    | error e => rw [hpm] at h; exact Except.noConfusion h
    | ok pr =>
      obtain ⟨rec1, att1⟩ := pr
      rw [hpm] at h
      cases hgo : run_batch_go cfg cr att (idx + 1) rest with
      | error e => rw [hgo] at h; exact Except.noConfusion h
      | ok out2 =>
        obtain ⟨recs, atts⟩ := out2
        rw [hgo] at h
        have h2 : Except.ok (ε := PyErr) (rec1 :: recs, att1 ++ atts) = Except.ok out := h
        injection h2 with h1
        rw [← h1]
        have e1 : att1 = [] :=
          process_model_atts_nil hdup hcopy hsrc hcol hpm
        have e2 : atts = [] :=
          run_batch_go_atts_nil hdup hcopy hsrc hcol cr att rest (idx + 1) (recs, atts) hgo
        show att1 ++ atts = []
        rw [e1, e2]
        rfl

/-- Claim C10: in duplication mode with collection copying enabled and an
empty snapshotted collection-id list, a completed run resolved no default
collection (no `ensure_collection` call was made) and attempted no collect
creation: every created product is attached to no collection at all. -/
theorem C10_dup_empty_snapshot_no_attach (template : Option Product)
    (ensure : String → Except PyErr Int)
    (create_res : Nat → Except PyErr Product)
    (attach_res : Nat → Int → Except PyErr Unit) (models : List ModelGroup)
    (out : List RunRecord × List (Int × Int) × List String)
    (hrun : run_full true true template [] ensure create_res attach_res models =
      Except.ok out) :
    out.2.1 = [] ∧ out.2.2 = [] := by
  unfold run_full at hrun
  have hres : resolve_default_collections true true ensure = Except.ok ([], []) := rfl
  simp only [hres] at hrun
  cases hrb : run_batch ⟨true, true, template, [], []⟩ create_res attach_res models with
  | error e => rw [hrb] at hrun; exact Except.noConfusion hrun
  | ok ra =>
    obtain ⟨recs, atts⟩ := ra
    rw [hrb] at hrun
    have h2 : Except.ok (ε := PyErr) (recs, atts, ([] : List String)) = Except.ok out :=
      hrun
    injection h2 with h1
    rw [← h1]
    refine ⟨?_, rfl⟩
    exact run_batch_go_atts_nil rfl rfl rfl rfl create_res attach_res models 0
      (recs, atts) hrb

/-- Witness for claim C10: a concrete duplication-mode run over one model
with an empty snapshot — the collection-resolution oracle fails on any call,
so the successful run also witnesses that no `ensure_collection` call was
made. -/
theorem C10_dup_empty_snapshot_witness :
    (([{ modello := "X", product_id := some 101, titolo := "T", handle := some "h",
         status := "active", collezioni := collectionsSummary, errore := none }],
       ([] : List (Int × Int)), ([] : List String)) :
        List RunRecord × List (Int × Int) × List String).2.1 = [] ∧
    (([{ modello := "X", product_id := some 101, titolo := "T", handle := some "h",
         status := "active", collezioni := collectionsSummary, errore := none }],
       ([] : List (Int × Int)), ([] : List String)) :
        List RunRecord × List (Int × Int) × List String).2.2 = [] :=
  C10_dup_empty_snapshot_no_attach (some prodW) ensureFailW createOkW attachOkW [mgX]
    ([{ modello := "X", product_id := some 101, titolo := "T", handle := some "h",
        status := "active", collezioni := collectionsSummary, errore := none }],
      [], [])
    (by rfl)
